import Mathlib

/-!
Verification development for the MFT REST submit-transfer client
(src/submitrequest.go).  The Go program builds a JSON transfer descriptor,
POSTs it to the MQ web server, and polls the returned location URL for the
transfer status (at most twice, with a fixed 5 second sleep in between).

The HTTP transport, the JSON libraries (jsongo, gjson) and the server are
external collaborators; they are modelled here by explicit oracles
(`CallResult`) and by a structural JSON value type (`JVal`) together with
faithful models of the library operations the program uses
(key-sorted serialization for jsongo's String(), path lookup /
Array() / String() for gjson, base64 standard encoding, UTF-8 bytes
for Go's string-to-byte conversion).
-/

/-- Brace characters, used by the JSON serializer and parser. -/
def lbraceChar : Char := Char.ofNat 123

def rbraceChar : Char := Char.ofNat 125

def lbraceStr : String := "\x7b"

def rbraceStr : String := "\x7d"

/-- Structural JSON values: the subset the program produces and consumes
(strings, objects, arrays). -/
inductive JVal where
  | str (s : String)
  | obj (fields : List (String × JVal))
  | arr (elems : List JVal)

/- Serialize a JSON value the way Go's encoding/json does for the
string/object/array subset (no spaces; our field values contain no
characters that require escaping). -/
mutual

def jserialize : JVal → String
  | .str s => "\"" ++ s ++ "\""
  | .obj fs => lbraceStr ++ jserializeFields fs ++ rbraceStr
  | .arr es => "[" ++ jserializeElems es ++ "]"

def jserializeFields : List (String × JVal) → String
  | [] => ""
  | [(k, v)] => "\"" ++ k ++ "\":" ++ jserialize v
  | (k, v) :: f :: rest => "\"" ++ k ++ "\":" ++ jserialize v ++ "," ++ jserializeFields (f :: rest)

def jserializeElems : List JVal → String
  | [] => ""
  | [v] => jserialize v
  | v :: e :: rest => jserialize v ++ "," ++ jserializeElems (e :: rest)

end

/-- Lexicographic comparison of character lists by code point; on UTF-8
data this is exactly Go's byte-order comparison of strings, which is the
order json.Marshal sorts map keys in. -/
def charListLt : List Char → List Char → Bool
  | [], [] => false
  | [], _ :: _ => true
  | _ :: _, [] => false
  | a :: as, b :: bs =>
    if a.toNat < b.toNat then true
    else if b.toNat < a.toNat then false
    else charListLt as bs

/-- String order used when sorting object keys. -/
def strLtB (a b : String) : Bool := charListLt a.data b.data

/-- Insert a field into a key-sorted field list (ascending key order). -/
def insertField (kv : String × JVal) : List (String × JVal) → List (String × JVal)
  | [] => [kv]
  | kv' :: rest => if strLtB kv'.1 kv.1 then kv' :: insertField kv rest else kv :: kv' :: rest

/- Recursively sort all object keys, modelling the fact that Go's
json.Marshal emits the keys of a map in sorted order (jsongo objects are
Go maps). -/
mutual

def sortKeys : JVal → JVal
  | .str s => .str s
  | .obj fs => .obj (sortFields fs)
  | .arr es => .arr (sortElems es)

def sortFields : List (String × JVal) → List (String × JVal)
  | [] => []
  | (k, v) :: rest => insertField (k, sortKeys v) (sortFields rest)

def sortElems : List JVal → List JVal
  | [] => []
  | v :: rest => sortKeys v :: sortElems rest

end

/-- jsongo's String(): marshal the object, map keys in sorted order. -/
def jsongoString (v : JVal) : String := jserialize (sortKeys v)

/-- Parse a JSON string body (after the opening quote): returns the
characters up to the closing quote and the remaining input. -/
def parseJString : List Char → Option (List Char × List Char)
  | [] => none
  | c :: rest =>
    if c = '"' then some ([], rest)
    else
      match parseJString rest with
      | some (s, r) => some (c :: s, r)
      | none => none

/- Fueled recursive-descent parser for the string/object/array JSON
subset produced by the program. -/
mutual

def parseJValue : Nat → List Char → Option (JVal × List Char)
  | 0, _ => none
  | fuel + 1, cs =>
    match cs with
    | [] => none
    | c :: rest =>
      if c = '"' then
        match parseJString rest with
        | some (s, r) => some (.str (String.mk s), r)
        | none => none
      else if c = lbraceChar then
        match parseJFields fuel rest with
        | some (fs, r) => some (.obj fs, r)
        | none => none
      else if c = '[' then
        match parseJElems fuel rest with
        | some (es, r) => some (.arr es, r)
        | none => none
      else none

def parseJFields : Nat → List Char → Option (List (String × JVal) × List Char)
  | 0, _ => none
  | fuel + 1, cs =>
    match cs with
    | [] => none
    | c :: rest =>
      if c = rbraceChar then some ([], rest)
      else if c = '"' then
        match parseJString rest with
        | some (k, r1) =>
          match r1 with
          | ':' :: r2 =>
            match parseJValue fuel r2 with
            | some (v, r3) =>
              match r3 with
              | ',' :: r4 =>
                match parseJFields fuel r4 with
                | some (fs, r5) => some ((String.mk k, v) :: fs, r5)
                | none => none
              | cb :: r4 => if cb = rbraceChar then some ([(String.mk k, v)], r4) else none
              | [] => none
            | none => none
          | _ => none
        | none => none
      else none

def parseJElems : Nat → List Char → Option (List JVal × List Char)
  | 0, _ => none
  | fuel + 1, cs =>
    match cs with
    | [] => none
    | c :: rest =>
      if c = ']' then some ([], rest)
      else
        match parseJValue fuel cs with
        | some (v, r1) =>
          match r1 with
          | ',' :: r2 =>
            match parseJElems fuel r2 with
            | some (es, r) => some (v :: es, r)
            | none => none
          | cb :: r2 => if cb = ']' then some ([v], r2) else none
          | [] => none
        | none => none

end

/-- Parse a complete JSON document (fuel 64 covers any nesting the
program handles). -/
def jparse (s : String) : Option JVal :=
  match parseJValue 64 s.data with
  | some (v, []) => some v
  | _ => none

/-- Look up a key in an object's field list (first match, as gjson). -/
def jlookup : List (String × JVal) → String → Option JVal
  | [], _ => none
  | (k', v) :: rest, k => if k' = k then some v else jlookup rest k

/-- One step of a gjson dotted path on a value. -/
def jget : JVal → String → Option JVal
  | .obj fs, k => jlookup fs k
  | _, _ => none

/-- gjson.Get with a dotted path, e.g. path status.state is
jpath v (cons status (cons state nil)). -/
def jpath : JVal → List String → Option JVal
  | v, [] => some v
  | v, k :: rest =>
    match jget v k with
    | some v' => jpath v' rest
    | none => none

/-- gjson Result.Array(): empty for a non-existent result or a JSON
object, the elements for an array, a one-element wrap otherwise. -/
def gjsonArray : Option JVal → List JVal
  | none => []
  | some (.arr xs) => xs
  | some (.obj _) => []
  | some (.str s) => [.str s]

/-- gjson Result.String(): empty for a non-existent result, the raw
string for a string, the serialized JSON otherwise. -/
def gjsonString : Option JVal → String
  | none => ""
  | some (.str s) => s
  | some v => jserialize v

/-- Go's strings.EqualFold restricted to the ASCII folding the program
relies on (it only ever compares against the ASCII word successful). -/
def eqFold (a b : String) : Bool :=
  a.data.map Char.toLower == b.data.map Char.toLower

/-! ### Configuration constants (src/submitrequest.go lines 51-61) -/

def mqRestXferUrl : String := "http://localhost:8080/ibmmq/rest/v2/admin/mft/transfer"

def mqWebUserId : String := "mqmftadminusr"

def mqWebPassword : String := "mqmftpassw0rd"

def sourceAgentName : String := "SRC"

def destinationAgentName : String := "DEST"

def sourceQMName : String := "SRCQM"

def destinationQMName : String := "DESTQM"

def sourceItemName : String := "/usr/srcdir"

def destinationItemName : String := "/usr/destdir"

def sourceItemType : String := "file"

def destinationItemType : String := "directory"

/-- net/http status constants used by the program. -/
def statusAccepted : Int := 202

def statusOK : Int := 200

/-- The jsongo object built by buildTransferJsonRequest (lines 86-114),
fields listed in the order the Put calls insert them. -/
def transferDescriptor : JVal :=
  .obj
    [("sourceAgent", .obj [("qmgrName", .str sourceQMName), ("name", .str sourceAgentName)]),
     ("destinationAgent",
       .obj [("qmgrName", .str destinationQMName), ("name", .str destinationAgentName)]),
     ("transferSet",
       .obj
         [("item",
           .arr
             [.obj
               [("source", .obj [("name", .str sourceItemName), ("type", .str sourceItemType)]),
                ("destination",
                  .obj
                    [("name", .str destinationItemName),
                     ("type", .str destinationItemType)])]])])]

/-- buildTransferJsonRequest: the descriptor rendered by jsongo's
String() (line 116). -/
def buildTransferJsonRequest : String := jsongoString transferDescriptor

/-! ### Go string-to-bytes and base64 (encoding/base64 StdEncoding) -/

/-- UTF-8 encoding of one code point, modelling what Go's byte-slice
conversion of a string does character by character. -/
def utf8EncodeCharNat (n : Nat) : List Nat :=
  if n < 128 then [n]
  else if n < 2048 then [192 + n / 64, 128 + n % 64]
  else if n < 65536 then [224 + n / 4096, 128 + n / 64 % 64, 128 + n % 64]
  else [240 + n / 262144, 128 + n / 4096 % 64, 128 + n / 64 % 64, 128 + n % 64]

/-- The bytes of a Go string (UTF-8 code units of its characters). -/
def strBytes (s : String) : List Nat :=
  s.data.flatMap (fun c => utf8EncodeCharNat c.toNat)

/-- The standard base64 alphabet of encoding/base64 StdEncoding. -/
def b64Alphabet : List Char :=
  "ABCDEFGHIJKLMNOPQRSTUVWXYZabcdefghijklmnopqrstuvwxyz0123456789+/".toList

/-- Encode one 6-bit group as a base64 character. -/
def encodeB64Char (n : Nat) : Char := b64Alphabet.getD n 'A'

/-- Position of a character in the base64 alphabet. -/
def decodeB64Char (c : Char) : Nat := b64Alphabet.indexOf c

/-- base64 StdEncoding of a byte sequence, with trailing padding as in
Go's encoding/base64 (used by buildHTTPRequestHeader, lines 139-140). -/
def base64Encode : List Nat → List Char
  | [] => []
  | [a] => [encodeB64Char (a / 4), encodeB64Char (a % 4 * 16), '=', '=']
  | [a, b] =>
    [encodeB64Char (a / 4), encodeB64Char (a % 4 * 16 + b / 16), encodeB64Char (b % 16 * 4), '=']
  | a :: b :: c :: rest =>
    encodeB64Char (a / 4) :: encodeB64Char (a % 4 * 16 + b / 16) ::
      encodeB64Char (b % 16 * 4 + c / 64) :: encodeB64Char (c % 64) :: base64Encode rest

/-- Standard base64 decoding (the inverse direction the spec appeals to
when it says decoding the header recovers the credentials). -/
def base64Decode : List Char → List Nat
  | w :: x :: y :: z :: rest =>
    if y = '=' then [decodeB64Char w * 4 + decodeB64Char x / 16]
    else if z = '=' then
      [decodeB64Char w * 4 + decodeB64Char x / 16,
       decodeB64Char x % 16 * 16 + decodeB64Char y / 4]
    else
      (decodeB64Char w * 4 + decodeB64Char x / 16) ::
        (decodeB64Char x % 16 * 16 + decodeB64Char y / 4) ::
        (decodeB64Char y % 4 * 64 + decodeB64Char z) :: base64Decode rest
  | _ => []

/-! ### HTTP request construction (buildHTTPRequestHeader, lines 126-147) -/

/-- A built HTTP request: verb, URL, body and the headers set on it. -/
structure HttpRequest where
  verb : String
  url : String
  body : String
  headers : List (String × String)

/-- Go http.Header.Get on the headers the program sets: first matching
name, empty string when absent. -/
def headerGet : List (String × String) → String → String
  | [], _ => ""
  | (k', v) :: rest, k => if k' = k then v else headerGet rest k

/-- The Authorization header value built at lines 137-141. -/
def authHeaderValue (userId password : String) : String :=
  "Basic " ++ String.mk (base64Encode (strBytes (userId ++ ":" ++ password)))

/-- buildHTTPRequestHeader.  Whether http.NewRequest succeeds depends on
the external net/http library; that outcome is the newRequestOk oracle.
On success the three headers of lines 141-144 are set unconditionally. -/
def buildHTTPRequestHeader (newRequestOk : Bool)
    (httpVerb url body userId password : String) : Option HttpRequest :=
  if newRequestOk then
    some
      { verb := httpVerb, url := url, body := body,
        headers :=
          [("Authorization", authHeaderValue userId password),
           ("ibm-mq-rest-csrf-token", ""),
           ("Content-Type", "application/json")] }
  else none

/-! ### HTTP call outcomes (oracles for the net/http client) -/

/-- A received HTTP response: status code, headers, and the body as the
JSON value it parses to (none when reading the body fails). -/
structure HttpResponse where
  statusCode : Int
  headers : List (String × String)
  body : Option JVal

/-- Outcome of one HTTP call: request construction failed, transport
failed, or a response was received. -/
inductive CallResult where
  | buildError
  | transportError
  | response (r : HttpResponse)

/-! ### postTransferRequest (lines 152-183) -/

/-- postTransferRequest: on construction or transport failure returns
the sentinel (-1, empty); when the body read fails the initial values
retCode = -1 and empty URL survive; otherwise the status code is
recorded and the location header is extracted only on 202. -/
def postTransferRequest (res : CallResult) : Int × String :=
  match res with
  | .buildError => (-1, "")
  | .transportError => (-1, "")
  | .response r =>
    match r.body with
    | none => (-1, "")
    | some _ =>
      if r.statusCode = statusAccepted then (r.statusCode, headerGet r.headers "location")
      else (r.statusCode, "")

/-! ### waitForTransferStatus (lines 189-235) -/

/-- One line of diagnostic output of waitForTransferStatus, tagged by
which Printf produced it (lines 191, 194, 201, 213, 217, 223, 229, 232). -/
inductive OutputLine where
  | querying
  | buildErr
  | transportErr
  | statusLine (id state : String)
  | failureHeader (description : String)
  | itemFailure (description : String)
  | readErr
  | nonOkStatus (code : Int)

/-- Result of one waitForTransferStatus call: the returned code (none
models the Go runtime panic at line 211 when the transfer array is
empty, in which case the function never returns) and the output. -/
structure PollResult where
  retCode : Option Int
  output : List OutputLine

/-- waitForTransferStatus.  On 200 the body is parsed and the first
element of the transfer array is accessed (respJson at index 0, line
211) without a length check: an empty array is an index-out-of-range
panic.  Otherwise the raw status code is returned. -/
def waitForTransferStatus (_transferUrl : String) (res : CallResult) : PollResult :=
  match res with
  | .buildError => { retCode := some (-1), output := [.querying, .buildErr] }
  | .transportError => { retCode := some (-1), output := [.querying, .transportErr] }
  | .response r =>
    if r.statusCode = statusOK then
      match r.body with
      | none => { retCode := some r.statusCode, output := [.querying, .readErr] }
      | some bodyJson =>
        match (gjsonArray (jpath bodyJson ["transfer"])).head? with
        | none => { retCode := none, output := [.querying] }
        | some t0 =>
          if eqFold (gjsonString (jpath t0 ["status", "state"])) "successful" then
            { retCode := some r.statusCode,
              output :=
                [.querying,
                 .statusLine (gjsonString (jpath t0 ["id"]))
                   (gjsonString (jpath t0 ["status", "state"]))] }
          else
            { retCode := some r.statusCode,
              output :=
                [.querying,
                 .statusLine (gjsonString (jpath t0 ["id"]))
                   (gjsonString (jpath t0 ["status", "state"])),
                 .failureHeader (gjsonString (jpath t0 ["status", "description"]))] ++
                  (gjsonArray (jpath t0 ["transferSet", "item"])).filterMap
                    (fun it =>
                      if eqFold (gjsonString (jpath it ["status", "state"])) "successful" then
                        none
                      else some (.itemFailure (gjsonString (jpath it ["status", "description"])))) }
    else { retCode := some r.statusCode, output := [.querying, .nonOkStatus r.statusCode] }

/-- The description carried by a per-item failure line, if the line is
one. -/
def itemFailureOf : OutputLine → Option String
  | .itemFailure d => some d
  | _ => none

/-- The descriptions carried by the per-item failure lines of an output. -/
def itemFailureLines (out : List OutputLine) : List String :=
  out.filterMap itemFailureOf

/-! ### main (lines 66-83) -/

/-- Outcomes of the three HTTP calls main can make, decided by the
environment: the submit POST and up to two status GETs. -/
structure World where
  submitRes : CallResult
  pollRes1 : CallResult
  pollRes2 : CallResult

/-- Observable trace of one program run: how often submit and poll ran,
how long the program slept, and whether it panicked. -/
structure RunTrace where
  submitCalls : Nat
  pollCalls : Nat
  sleepSeconds : Nat
  panicked : Bool

/-- func main (the name main is reserved in Lean for executables):
submit once; if the submit return code is 202 poll once; if that poll's
return code is not 200, sleep 5 seconds and poll exactly once more. -/
def mainFlow (w : World) : RunTrace :=
  match postTransferRequest w.submitRes with
  | (retCode, transferUrl) =>
    if retCode = statusAccepted then
      match (waitForTransferStatus transferUrl w.pollRes1).retCode with
      | none => { submitCalls := 1, pollCalls := 1, sleepSeconds := 0, panicked := true }
      | some respCode =>
        if respCode ≠ statusOK then
          match (waitForTransferStatus transferUrl w.pollRes2).retCode with
          | none => { submitCalls := 1, pollCalls := 2, sleepSeconds := 5, panicked := true }
          | some _ => { submitCalls := 1, pollCalls := 2, sleepSeconds := 5, panicked := false }
        else { submitCalls := 1, pollCalls := 1, sleepSeconds := 0, panicked := false }
    else { submitCalls := 1, pollCalls := 0, sleepSeconds := 0, panicked := false }

/-! ### Concrete fixtures used by the witness theorems -/

/-- A mocked 202 submit response carrying a location header. -/
def acceptedResponse : HttpResponse :=
  { statusCode := 202, headers := [("location", "http://x/transfer/123")],
    body := some (.obj []) }

/-- A mocked 202 submit response whose body cannot be read. -/
def unreadableResponse : HttpResponse :=
  { statusCode := 202, headers := [("location", "http://x/transfer/123")], body := none }

/-- A mocked 200 poll body: overall state failed, one successful item and
one failed item with description disk full. -/
def failedPollBody : JVal :=
  .obj
    [("transfer",
      .arr
        [.obj
          [("id", .str "414d51"),
           ("status", .obj [("state", .str "failed"), ("description", .str "transfer failed")]),
           ("transferSet",
             .obj
               [("item",
                 .arr
                   [.obj
                     [("status",
                       .obj [("state", .str "successful"), ("description", .str "copied fine")])],
                    .obj
                     [("status",
                       .obj [("state", .str "failed"), ("description", .str "disk full")])]])])]])]

/-- The first transfer element of failedPollBody. -/
def failedPollFirst : JVal :=
  .obj
    [("id", .str "414d51"),
     ("status", .obj [("state", .str "failed"), ("description", .str "transfer failed")]),
     ("transferSet",
       .obj
         [("item",
           .arr
             [.obj
               [("status",
                 .obj [("state", .str "successful"), ("description", .str "copied fine")])],
              .obj
               [("status",
                 .obj [("state", .str "failed"), ("description", .str "disk full")])]])])]

/-- A 200 poll response with the failed body. -/
def failedPollResponse : HttpResponse :=
  { statusCode := 200, headers := [], body := some failedPollBody }

/-- A 200 poll response whose JSON body has an empty transfer array. -/
def emptyTransferResponse : HttpResponse :=
  { statusCode := 200, headers := [], body := some (.obj [("transfer", .arr [])]) }

/-- A world in which the submit POST fails at the transport layer. -/
def transportFailWorld : World :=
  { submitRes := .transportError, pollRes1 := .transportError, pollRes2 := .transportError }

/-- A world in which submit is accepted and the first poll returns the
empty-transfer-array body. -/
def emptyTransferWorld : World :=
  { submitRes := .response acceptedResponse,
    pollRes1 := .response emptyTransferResponse,
    pollRes2 := .transportError }

/-- The request buildHTTPRequestHeader builds for the credentials user
and pass (used to discharge the construction hypothesis concretely). -/
def builtPostRequest : HttpRequest :=
  { verb := "POST", url := mqRestXferUrl, body := "",
    headers :=
      [("Authorization", authHeaderValue "user" "pass"),
       ("ibm-mq-rest-csrf-token", ""),
       ("Content-Type", "application/json")] }

/-- The request buildHTTPRequestHeader builds for the status GET (empty
body, configured credentials). -/
def builtGetRequest : HttpRequest :=
  { verb := "GET", url := mqRestXferUrl ++ "?attributes=*", body := "",
    headers :=
      [("Authorization", authHeaderValue mqWebUserId mqWebPassword),
       ("ibm-mq-rest-csrf-token", ""),
       ("Content-Type", "application/json")] }

/-! ### Helper lemmas -/

/-- Every run issues exactly one submit POST (main has no retry around
postTransferRequest). -/
theorem mainFlow_submitCalls (w : World) : (mainFlow w).submitCalls = 1 := by
  unfold mainFlow
  rcases postTransferRequest w.submitRes with ⟨rc, url⟩
  dsimp only
  split
  · split <;> first | rfl | (split <;> first | rfl | (split <;> rfl))
  · rfl

/-! ### Claims -/

/-- C2: for every response received by postTransferRequest whose body is
readable, the returned pair is the response's status code together with
the location header exactly when that code is 202, and the empty string
otherwise. -/
theorem c2_submit_returns_code_and_handle (r : HttpResponse) (b : JVal)
    (h : r.body = some b) :
    postTransferRequest (.response r) =
      (r.statusCode,
        if r.statusCode = statusAccepted then headerGet r.headers "location" else "") := by
  obtain ⟨code, hs, body⟩ := r
  simp only at h
  subst h
  simp only [postTransferRequest]
  split <;> simp_all

/-- C2 witness: a mocked 202 response with a location header yields
(202, http://x/transfer/123). -/
theorem c2_witness :
    postTransferRequest (.response acceptedResponse) = (202, "http://x/transfer/123") := by
  rw [c2_submit_returns_code_and_handle acceptedResponse (.obj []) rfl]
  rfl

/-- C5: when request construction or the transport fails during
submission, postTransferRequest returns the sentinel (-1, empty handle),
and the top-level flow never retries the submit (exactly one submit per
run). -/
theorem c5_submit_failure_sentinel (res : CallResult)
    (h : res = CallResult.buildError ∨ res = CallResult.transportError) :
    postTransferRequest res = (-1, "") ∧ ∀ w : World, (mainFlow w).submitCalls = 1 := by
  constructor
  · rcases h with h | h <;> subst h <;> rfl
  · exact mainFlow_submitCalls

/-- C5 witness: the transport-failure case concretely. -/
theorem c5_witness :
    postTransferRequest CallResult.transportError = (-1, "") ∧
      (mainFlow transportFailWorld).submitCalls = 1 := by
  have h := c5_submit_failure_sentinel CallResult.transportError (Or.inr rfl)
  exact ⟨h.1, h.2 transportFailWorld⟩

/-- C10: when the POST round-trip succeeds but reading the response body
fails, postTransferRequest returns (-1, empty handle) even though a
status code was received, and the top-level flow never polls. -/
theorem c10_unreadable_body_suppresses_poll (r : HttpResponse) (h : r.body = none) :
    postTransferRequest (.response r) = (-1, "") ∧
      ∀ p1 p2 : CallResult,
        (mainFlow { submitRes := .response r, pollRes1 := p1, pollRes2 := p2 }).pollCalls = 0 := by
  obtain ⟨code, hs, body⟩ := r
  simp only at h
  subst h
  exact ⟨rfl, fun p1 p2 => rfl⟩

/-- C10 witness: a 202 response with an unreadable body yields (-1,
empty) and zero polls. -/
theorem c10_witness :
    postTransferRequest (.response unreadableResponse) = (-1, "") ∧
      (mainFlow
          { submitRes := .response unreadableResponse, pollRes1 := .transportError,
            pollRes2 := .transportError }).pollCalls = 0 := by
  have h := c10_unreadable_body_suppresses_poll unreadableResponse rfl
  exact ⟨h.1, h.2 .transportError .transportError⟩

/-- C6: waitForTransferStatus does not return the raw HTTP status code
on every received response: on a 200 response whose body has an empty
transfer array it indexes the array out of range and panics instead of
returning 200 (the claim holds on the other paths; this is the code
slip, the source guards the item array length but not the transfer
array). -/
theorem c6_poll_never_returns_on_empty_transfer :
    (waitForTransferStatus "http://x/transfer/123"
        (.response emptyTransferResponse)).retCode = none := rfl

/-- C4: the program does not complete normally on every server response:
with submit accepted and a 200 poll response whose body is an empty
transfer array, the run panics during the first poll. -/
theorem c4_program_panics_on_empty_transfer :
    (mainFlow emptyTransferWorld).panicked = true ∧
      (mainFlow emptyTransferWorld).pollCalls = 1 :=
  ⟨rfl, rfl⟩

/-- C8 counterexample: the status GET request, built with an empty body,
does carry the Content-Type header (line 144 sets it unconditionally),
contrary to the claim that an empty-body request does not carry it. -/
theorem c8_counterexample_get_carries_content_type :
    (buildHTTPRequestHeader true "GET" (mqRestXferUrl ++ "?attributes=*") "" mqWebUserId
          mqWebPassword).map (fun req => headerGet req.headers "Content-Type") =
      some "application/json" := rfl

/-- C8 (amended): every request buildHTTPRequestHeader builds carries
the header Content-Type application/json, whether or not a body is
present. -/
theorem c8_content_type_always_set (ok : Bool) (verb url body userId password : String)
    (req : HttpRequest)
    (h : buildHTTPRequestHeader ok verb url body userId password = some req) :
    headerGet req.headers "Content-Type" = "application/json" := by
  cases ok
  · simp [buildHTTPRequestHeader] at h
  · simp only [buildHTTPRequestHeader, if_pos, Option.some.injEq] at h
    subst h
    rfl

/-- C8 witness: the empty-body status GET carries the header. -/
theorem c8_witness :
    headerGet builtGetRequest.headers "Content-Type" = "application/json" :=
  c8_content_type_always_set true "GET" (mqRestXferUrl ++ "?attributes=*") "" mqWebUserId
    mqWebPassword builtGetRequest rfl

/-- C1: the top-level flow polls at most twice; it never polls when the
submit return code is not 202; when submit returns 202 and the first
poll returns 200 there is exactly one poll; when submit returns 202 and
the first poll returns a code other than 200 there are exactly two
polls, with the fixed 5 second sleep in between. -/
theorem c1_top_level_poll_discipline (w : World) :
    (mainFlow w).pollCalls ≤ 2
    ∧ ((postTransferRequest w.submitRes).1 ≠ statusAccepted → (mainFlow w).pollCalls = 0)
    ∧ ((postTransferRequest w.submitRes).1 = statusAccepted →
        (waitForTransferStatus (postTransferRequest w.submitRes).2 w.pollRes1).retCode =
          some statusOK →
        (mainFlow w).pollCalls = 1)
    ∧ (∀ c : Int, (postTransferRequest w.submitRes).1 = statusAccepted →
        (waitForTransferStatus (postTransferRequest w.submitRes).2 w.pollRes1).retCode = some c →
        c ≠ statusOK →
        (mainFlow w).pollCalls = 2 ∧ (mainFlow w).sleepSeconds = 5) := by
  unfold mainFlow
  rcases hp : postTransferRequest w.submitRes with ⟨rc, url⟩
  dsimp only
  by_cases hacc : rc = statusAccepted
  · rw [if_pos hacc]
    rcases hr1 : (waitForTransferStatus url w.pollRes1).retCode with _ | c1
    · dsimp only
      exact
        ⟨by decide, fun hne => absurd hacc hne, fun _ h => Option.noConfusion h,
         fun c _ h => Option.noConfusion h⟩
    · dsimp only
      by_cases hok : c1 = statusOK
      · rw [if_neg (not_not_intro hok)]
        dsimp only
        refine ⟨by decide, fun hne => absurd hacc hne, fun _ _ => rfl, ?_⟩
        intro c _ hc hcne
        cases hc
        exact absurd hok hcne
      · rw [if_pos hok]
        rcases hr2 : (waitForTransferStatus url w.pollRes2).retCode with _ | c2 <;> dsimp only <;>
          exact
            ⟨by decide, fun hne => absurd hacc hne,
             fun _ h => absurd (Option.some.inj h) hok, fun c _ _ _ => ⟨rfl, rfl⟩⟩
  · rw [if_neg hacc]
    dsimp only
    exact ⟨by decide, fun _ => rfl, fun h => absurd h hacc, fun c h => absurd h hacc⟩

/-- C1 witness: when the submit POST fails at the transport layer the
return code is -1, not 202, and the flow performs zero polls. -/
theorem c1_witness :
    (mainFlow transportFailWorld).pollCalls ≤ 2 ∧ (mainFlow transportFailWorld).pollCalls = 0 :=
  ⟨(c1_top_level_poll_discipline transportFailWorld).1,
   (c1_top_level_poll_discipline transportFailWorld).2.1 (by decide)⟩

/-- Helper: the per-item failure lines produced by the item loop are the
descriptions of exactly the non-successful items, in order. -/
theorem itemFailureLines_of_items (p : JVal → Bool) (d : JVal → String) (l : List JVal) :
    itemFailureLines
        (l.filterMap fun it =>
          if p it then none else some (OutputLine.itemFailure (d it))) =
      (l.filter fun it => !p it).map d := by
  induction l with
  | nil => rfl
  | cons a t ih =>
    by_cases h : p a <;>
      simp [itemFailureLines, List.filterMap_cons, h, itemFailureOf] at ih ⊢ <;> exact ih

/-- C3: on a 200 poll response with readable body whose first transfer
element is not successful, the per-item failure lines are the
descriptions of exactly the non-successful items of transferSet.item,
each once and in order; and when the overall state is successful no
per-item failure line is printed. -/
theorem c3_per_item_failure_output (url : String) (r : HttpResponse) (b t0 : JVal)
    (hcode : r.statusCode = statusOK) (hbody : r.body = some b)
    (hfirst : (gjsonArray (jpath b ["transfer"])).head? = some t0) :
    (eqFold (gjsonString (jpath t0 ["status", "state"])) "successful" = false →
      itemFailureLines (waitForTransferStatus url (.response r)).output =
        ((gjsonArray (jpath t0 ["transferSet", "item"])).filter
            (fun it => !eqFold (gjsonString (jpath it ["status", "state"])) "successful")).map
          (fun it => gjsonString (jpath it ["status", "description"])))
    ∧ (eqFold (gjsonString (jpath t0 ["status", "state"])) "successful" = true →
        itemFailureLines (waitForTransferStatus url (.response r)).output = []) := by
  obtain ⟨code, hs, body⟩ := r
  simp only at hcode hbody
  subst hcode
  subst hbody
  unfold waitForTransferStatus
  dsimp only
  rw [if_pos rfl, hfirst]
  dsimp only
  constructor
  · intro hst
    rw [if_neg (by simp [hst])]
    dsimp only
    rw [show
        ([OutputLine.querying,
          OutputLine.statusLine (gjsonString (jpath t0 ["id"]))
            (gjsonString (jpath t0 ["status", "state"])),
          OutputLine.failureHeader (gjsonString (jpath t0 ["status", "description"]))] :
          List OutputLine) = [] ++ [OutputLine.querying,
          OutputLine.statusLine (gjsonString (jpath t0 ["id"]))
            (gjsonString (jpath t0 ["status", "state"])),
          OutputLine.failureHeader (gjsonString (jpath t0 ["status", "description"]))]
      from rfl]
    unfold itemFailureLines
    rw [List.filterMap_append]
    exact
      congrArg (fun x => [] ++ x)
        (itemFailureLines_of_items
          (fun it => eqFold (gjsonString (jpath it ["status", "state"])) "successful")
          (fun it => gjsonString (jpath it ["status", "description"]))
          (gjsonArray (jpath t0 ["transferSet", "item"])))
  · intro hst
    rw [if_pos hst]
    rfl

/-- C3 witness: the mocked failed poll body with one successful and one
failed item prints exactly the failed item's description disk full,
once. -/
theorem c3_witness :
    itemFailureLines
        (waitForTransferStatus "http://x/transfer/123"
            (.response failedPollResponse)).output = ["disk full"] := by
  rw [(c3_per_item_failure_output "http://x/transfer/123" failedPollResponse failedPollBody
        failedPollFirst rfl rfl rfl).1 rfl]
  rfl

set_option maxRecDepth 8192 in
/-- C9: parsing the JSON string produced by buildTransferJsonRequest
recovers the descriptor (keys sorted, as Go marshals maps) and in
particular every configured nested field value: both agents' qmgrName
and name, and the single transferSet item's source and destination
name and type. -/
theorem c9_descriptor_round_trip :
    jparse buildTransferJsonRequest = some (sortKeys transferDescriptor)
    ∧ (jparse buildTransferJsonRequest).bind
        (fun v => jpath v ["sourceAgent", "qmgrName"]) = some (.str sourceQMName)
    ∧ (jparse buildTransferJsonRequest).bind
        (fun v => jpath v ["sourceAgent", "name"]) = some (.str sourceAgentName)
    ∧ (jparse buildTransferJsonRequest).bind
        (fun v => jpath v ["destinationAgent", "qmgrName"]) = some (.str destinationQMName)
    ∧ (jparse buildTransferJsonRequest).bind
        (fun v => jpath v ["destinationAgent", "name"]) = some (.str destinationAgentName)
    ∧ (jparse buildTransferJsonRequest).bind
        (fun v =>
          ((gjsonArray (jpath v ["transferSet", "item"])).head?).bind
            (fun it => jpath it ["source", "name"])) = some (.str sourceItemName)
    ∧ (jparse buildTransferJsonRequest).bind
        (fun v =>
          ((gjsonArray (jpath v ["transferSet", "item"])).head?).bind
            (fun it => jpath it ["source", "type"])) = some (.str sourceItemType)
    ∧ (jparse buildTransferJsonRequest).bind
        (fun v =>
          ((gjsonArray (jpath v ["transferSet", "item"])).head?).bind
            (fun it => jpath it ["destination", "name"])) = some (.str destinationItemName)
    ∧ (jparse buildTransferJsonRequest).bind
        (fun v =>
          ((gjsonArray (jpath v ["transferSet", "item"])).head?).bind
            (fun it => jpath it ["destination", "type"])) = some (.str destinationItemType) :=
  ⟨rfl, rfl, rfl, rfl, rfl, rfl, rfl, rfl, rfl⟩

/-- Decoding a base64 character is a left inverse of encoding on 6-bit
values. -/
theorem decodeB64Char_encodeB64Char : ∀ n, n < 64 → decodeB64Char (encodeB64Char n) = n := by
  decide

/-- No 6-bit value encodes to the padding character. -/
theorem encodeB64Char_ne_pad : ∀ n, n < 64 → encodeB64Char n ≠ '=' := by decide

/-- base64 decoding inverts base64 encoding on byte sequences
(auxiliary form with an explicit length bound for the induction). -/
theorem base64Decode_base64Encode_aux :
    ∀ (fuel : Nat) (l : List Nat), l.length ≤ fuel → (∀ b ∈ l, b < 256) →
      base64Decode (base64Encode l) = l := by
  intro fuel
  induction fuel with
  | zero =>
    intro l hl _
    cases l with
    | nil => rfl
    | cons a t => simp at hl
  | succ n ih =>
    intro l hl hb
    match l with
    | [] => rfl
    | [a] =>
      have ha : a < 256 := hb a (by simp)
      simp only [base64Encode, base64Decode, if_true]
      rw [decodeB64Char_encodeB64Char _ (by omega), decodeB64Char_encodeB64Char _ (by omega)]
      simp only [List.cons.injEq, and_true]
      omega
    | [a, b] =>
      have ha : a < 256 := hb a (by simp)
      have hbb : b < 256 := hb b (by simp)
      simp only [base64Encode, base64Decode]
      rw [if_neg (encodeB64Char_ne_pad _ (by omega))]
      simp only [if_true]
      rw [decodeB64Char_encodeB64Char _ (by omega), decodeB64Char_encodeB64Char _ (by omega),
        decodeB64Char_encodeB64Char _ (by omega)]
      simp only [List.cons.injEq, and_true]
      omega
    | a :: b :: c :: rest =>
      have ha : a < 256 := hb a (by simp)
      have hbb : b < 256 := hb b (by simp)
      have hc : c < 256 := hb c (by simp)
      have hrest := ih rest (by simp at hl ⊢; omega) (fun x hx => hb x (by simp [hx]))
      simp only [base64Encode, base64Decode]
      rw [if_neg (encodeB64Char_ne_pad _ (by omega)), if_neg (encodeB64Char_ne_pad _ (by omega))]
      rw [decodeB64Char_encodeB64Char _ (by omega), decodeB64Char_encodeB64Char _ (by omega),
        decodeB64Char_encodeB64Char _ (by omega), decodeB64Char_encodeB64Char _ (by omega)]
      rw [hrest]
      simp only [List.cons.injEq, and_true, and_self_iff]
      omega

/-- base64 decoding inverts base64 encoding on byte sequences. -/
theorem base64_roundtrip (l : List Nat) (hb : ∀ b ∈ l, b < 256) :
    base64Decode (base64Encode l) = l :=
  base64Decode_base64Encode_aux l.length l le_rfl hb

/-- Every character's code point is below the Unicode bound. -/
theorem charToNat_lt (c : Char) : c.toNat < 1114112 := by
  rcases c.valid with h | ⟨h1, h2⟩
  · exact Nat.lt_trans h (by norm_num)
  · exact h2

/-- UTF-8 code units are bytes. -/
theorem utf8EncodeCharNat_lt (n : Nat) (hn : n < 1114112) :
    ∀ b ∈ utf8EncodeCharNat n, b < 256 := by
  intro b hbmem
  unfold utf8EncodeCharNat at hbmem
  split_ifs at hbmem <;> simp at hbmem <;> omega

/-- The bytes of a Go string are bytes. -/
theorem strBytes_lt (s : String) : ∀ b ∈ strBytes s, b < 256 := by
  intro b hb
  rw [strBytes, List.mem_flatMap] at hb
  obtain ⟨c, _, hbc⟩ := hb
  exact utf8EncodeCharNat_lt c.toNat (charToNat_lt c) b hbc

/-- C7: every built request carries an Authorization header equal to
Basic followed by the standard base64 encoding of userId colon password,
and base64-decoding that encoding recovers the original byte string of
the pair. -/
theorem c7_basic_auth_header (userId password : String) (ok : Bool)
    (verb url body : String) (req : HttpRequest)
    (h : buildHTTPRequestHeader ok verb url body userId password = some req) :
    headerGet req.headers "Authorization" =
      "Basic " ++ String.mk (base64Encode (strBytes (userId ++ ":" ++ password)))
    ∧ base64Decode (base64Encode (strBytes (userId ++ ":" ++ password))) =
        strBytes (userId ++ ":" ++ password) := by
  constructor
  · cases ok
    · simp [buildHTTPRequestHeader] at h
    · simp only [buildHTTPRequestHeader, if_pos, Option.some.injEq] at h
      subst h
      rfl
  · exact base64_roundtrip _ (strBytes_lt _)

/-- C7 witness: the POST request built for the credentials user and pass
carries the expected Basic header, and decoding recovers the bytes. -/
theorem c7_witness :
    headerGet builtPostRequest.headers "Authorization" =
      "Basic " ++ String.mk (base64Encode (strBytes ("user" ++ ":" ++ "pass")))
    ∧ base64Decode (base64Encode (strBytes ("user" ++ ":" ++ "pass"))) =
        strBytes ("user" ++ ":" ++ "pass") :=
  c7_basic_auth_header "user" "pass" true "POST" mqRestXferUrl "" builtPostRequest rfl
